import Mathlib

/-!
Shallow embedding of the product/cart domain of the Grupo e-commerce
repository, together with proofs about its behaviour.

Conventions of the embedding:
* TypeScript `number` is modelled by `JSNum`: a rational for every finite
  value plus the three non-finite values `nan`, `inf` and `negInf`.
  Quantities, stock counts and percentages that the source treats as plain
  numbers are modelled as `Int` or `ℚ` where the operations only ever
  combine finite values.
* A method that can `throw` is modelled as a function into
  `Except DomainError _`; an `error` result models the exception
  propagating with no field ever written (in the source, validation always
  precedes mutation inside each method, and a throw aborts the method).
* `Date` timestamps are modelled as a `Nat` supplied to every mutating
  operation (the value of `new Date()` at call time).
* Domain events emitted by a successful operation are returned alongside
  the new state; a failed operation returns no state and no events.
-/

deriving instance DecidableEq for Except

/-- JavaScript `String.prototype.trim`: removes leading and trailing
whitespace.  (Core `String.trim` is defined by well-founded recursion
and does not evaluate inside the kernel, so the embedding uses this
structurally recursive equivalent.) -/
def jsTrim (s : String) : String :=
  ⟨((s.data.dropWhile Char.isWhitespace).reverse.dropWhile
      Char.isWhitespace).reverse⟩

/-- Model of a TypeScript `number`: a finite rational, `NaN`, `Infinity`
or `-Infinity`. -/
inductive JSNum where
  | fin (q : ℚ)
  | nan
  | inf
  | negInf
deriving DecidableEq, Repr

/-- The runtime `isNaN` check used by `Money.validateAmount`. -/
def JSNum.isNaN : JSNum → Bool
  | .nan => true
  | _ => false

/-- JavaScript addition on numbers. -/
def JSNum.add : JSNum → JSNum → JSNum
  | .fin a, .fin b => .fin (a + b)
  | .nan, _ => .nan
  | _, .nan => .nan
  | .inf, .negInf => .nan
  | .negInf, .inf => .nan
  | .inf, _ => .inf
  | _, .inf => .inf
  | .negInf, _ => .negInf
  | _, .negInf => .negInf

/-- JavaScript subtraction on numbers. -/
def JSNum.sub : JSNum → JSNum → JSNum
  | .fin a, .fin b => .fin (a - b)
  | .nan, _ => .nan
  | _, .nan => .nan
  | .inf, .inf => .nan
  | .negInf, .negInf => .nan
  | .inf, _ => .inf
  | .negInf, _ => .negInf
  | _, .inf => .negInf
  | _, .negInf => .inf

/-- JavaScript multiplication on numbers. -/
def JSNum.mul : JSNum → JSNum → JSNum
  | .fin a, .fin b => .fin (a * b)
  | .nan, _ => .nan
  | _, .nan => .nan
  | .inf, .fin b => if b = 0 then .nan else if 0 < b then .inf else .negInf
  | .fin a, .inf => if a = 0 then .nan else if 0 < a then .inf else .negInf
  | .negInf, .fin b => if b = 0 then .nan else if 0 < b then .negInf else .inf
  | .fin a, .negInf => if a = 0 then .nan else if 0 < a then .negInf else .inf
  | .inf, .inf => .inf
  | .inf, .negInf => .negInf
  | .negInf, .inf => .negInf
  | .negInf, .negInf => .inf

/-- The domain errors thrown by the embedded code.  Each constructor
stands for one `throw new Error(...)` site (or family of sites) of the
source; `visitorMethodMissing` stands for the `TypeError` raised when a
product calls a visitor method that `PrecioProductoVisitor` does not
implement. -/
inductive DomainError where
  | invalidAmount
  | invalidCurrency
  | currencyMismatch
  | invalidDiscount
  | invalidName
  | invalidDescription
  | invalidStock
  | invalidQuantity
  | insufficientStock
  | invalidDiscountRange
  | invalidSize
  | nullProductOperation
  | productUnavailable
  | cartCapacityExceeded
  | lineNotFound
  | visitorMethodMissing
deriving DecidableEq, Repr

/-- The `Money` value object of `Usuario.ts` (the variant with
`fromValue`, `zero`, `of` and `applyDiscount`, which is the one the
product hierarchy and the pricing visitor consume). -/
structure Money where
  amount : JSNum
  currency : String
deriving DecidableEq, Repr

/-- `Money.validateAmount`: the source checks
`typeof amount !== 'number' || isNaN(amount)`.  The `typeof` test is
discharged statically by the embedding types, so only the `isNaN` test
remains. -/
def Money.validateAmount (amount : JSNum) : Except DomainError Unit :=
  if amount.isNaN then .error .invalidAmount else .ok ()

/-- `Money.validateCurrency`: the source checks
`!currency || currency.trim().length !== 3`. -/
def Money.validateCurrency (currency : String) : Except DomainError Unit :=
  if currency = "" ∨ (jsTrim currency).length ≠ 3 then .error .invalidCurrency
  else .ok ()

/-- The private `Money` constructor: validates the amount, then the
currency, then stores both unchanged. -/
def Money.make (amount : JSNum) (currency : String) : Except DomainError Money := do
  Money.validateAmount amount
  Money.validateCurrency currency
  return { amount := amount, currency := currency }

/-- `Money.fromValue(amount, currency = 'COP')`.  The TypeScript default
for the currency argument is `"COP"`; call sites that rely on the default
pass `"COP"` explicitly in this embedding. -/
def Money.fromValue (amount : JSNum) (currency : String) : Except DomainError Money :=
  Money.make amount currency

/-- `Money.zero(currency = 'COP')`; every call site in the repository uses
the default currency. -/
def Money.zero : Except DomainError Money :=
  Money.make (.fin 0) "COP"

/-- `Money.of(amount)`: forwards to the private constructor, whose
currency parameter defaults to `'USD'`. -/
def Money.of (amount : JSNum) : Except DomainError Money :=
  Money.make amount "USD"

/-- `Money.validateSameCurrency`. -/
def Money.validateSameCurrency (self other : Money) : Except DomainError Unit :=
  if self.currency ≠ other.currency then .error .currencyMismatch else .ok ()

/-- `Money.add`: checks the currencies match, then builds a new `Money`
through the validating constructor. -/
def Money.add (self other : Money) : Except DomainError Money := do
  Money.validateSameCurrency self other
  Money.make (self.amount.add other.amount) self.currency

/-- `Money.multiply(factor)`: builds a new `Money` through the validating
constructor, keeping the currency. -/
def Money.multiply (self : Money) (factor : JSNum) : Except DomainError Money :=
  Money.make (self.amount.mul factor) self.currency

/-- `Money.applyDiscount(pct)`: rejects a percentage outside `[0, 100]`,
otherwise multiplies by `1 - pct / 100`.  The percentage is finite at
every call site, so it is modelled as a rational. -/
def Money.applyDiscount (self : Money) (pct : ℚ) : Except DomainError Money :=
  if pct < 0 ∨ pct > 100 then .error .invalidDiscount
  else self.multiply (.fin (1 - pct / 100))

/-- The variant-specific data of the closed product hierarchy.
`estandar` is the `Producto` class, `digital` is `ProductoDigital`,
`natural` is `ProductoNatural` and `nulo` is `ProductoNull`. -/
inductive Variante where
  | estandar (descuento : ℚ) (destacado : Bool) (etiquetas : List String)
  | digital (formato : String) (tamanoMb : ℚ) (urlDescarga : String) (descuento : ℚ)
  | natural (descuento : ℚ) (destacado : Bool) (etiquetas : List String)
  | nulo
deriving DecidableEq, Repr

/-- The mutable state shared by every product of the hierarchy
(`AbstractProducto` fields), together with the variant data.
`ProductId` is modelled by the string the cart keys on
(`getId().toString()`). -/
structure ProductoState where
  id : String
  nombre : String
  descripcion : String
  precio : Money
  stock : Int
  categoriaId : String
  imagenUrl : String
  createdAt : Nat
  updatedAt : Nat
  variante : Variante
deriving DecidableEq, Repr

/-- The domain events a product operation can emit.  `actualizado`
carries only the field name; the old/new values are irrelevant to every
claim. -/
inductive Evento where
  | creado (productoId nombre : String) (precio : JSNum)
  | actualizado (productoId campo : String)
  | stockCambiado (productoId : String) (oldStock newStock delta : Int)
deriving DecidableEq, Repr

/-- `shouldEmitEvents`: `true` for every variant except `ProductoNull`,
which overrides it to `false`. -/
def shouldEmitEvents (p : ProductoState) : Bool :=
  match p.variante with
  | .nulo => false
  | _ => true

/-- `AbstractProducto.validarNombre`: rejects an empty or blank name and
a name longer than 100 characters. -/
def validarNombre (nombre : String) : Except DomainError Unit :=
  if nombre = "" ∨ jsTrim nombre = "" then .error .invalidName
  else if nombre.length > 100 then .error .invalidName
  else .ok ()

/-- `AbstractProducto.validarDescripcion`: rejects an empty or blank
description. -/
def validarDescripcion (descripcion : String) : Except DomainError Unit :=
  if descripcion = "" ∨ jsTrim descripcion = "" then .error .invalidDescription
  else .ok ()

/-- `AbstractProducto.validarStock`: rejects every negative stock,
including the `-1` sentinel (`if (stock < 0) throw`). -/
def validarStock (stock : Int) : Except DomainError Unit :=
  if stock < 0 then .error .invalidStock else .ok ()

/-- `validarDescuento` (identical in `Producto` and `ProductoDigital`):
the discount must lie in `[0, 100]`. -/
def validarDescuento (descuento : ℚ) : Except DomainError Unit :=
  if descuento < 0 ∨ descuento > 100 then .error .invalidDiscountRange
  else .ok ()

/-- `ProductoDigital.validarTamano`: the size in MB must not be
negative. -/
def validarTamano (tamanoMb : ℚ) : Except DomainError Unit :=
  if tamanoMb < 0 then .error .invalidSize else .ok ()

/-- The `AbstractProducto` constructor: validates name, description and
stock, stores the fields and emits a `created` event when the variant
emits events. -/
def mkAbstractProducto (id nombre descripcion : String) (precio : Money)
    (stock : Int) (categoriaId imagenUrl : String) (createdAt updatedAt : Nat)
    (variante : Variante) : Except DomainError (ProductoState × List Evento) := do
  validarNombre nombre
  validarDescripcion descripcion
  validarStock stock
  let p : ProductoState :=
    { id := id, nombre := nombre, descripcion := descripcion, precio := precio,
      stock := stock, categoriaId := categoriaId, imagenUrl := imagenUrl,
      createdAt := createdAt, updatedAt := updatedAt, variante := variante }
  pure (p, if shouldEmitEvents p then [.creado id nombre precio.amount] else [])

/-- The `ProductoDigital` constructor: runs the `AbstractProducto`
constructor (name, description and stock validation, `created` event)
and then validates the discount and the size. -/
def mkProductoDigital (id nombre descripcion : String) (precio : Money)
    (stock : Int) (categoriaId imagenUrl formato : String) (tamanoMb : ℚ)
    (urlDescarga : String) (descuento : ℚ) (createdAt updatedAt : Nat) :
    Except DomainError (ProductoState × List Evento) := do
  let r ← mkAbstractProducto id nombre descripcion precio stock categoriaId
    imagenUrl createdAt updatedAt (.digital formato tamanoMb urlDescarga descuento)
  validarDescuento descuento
  validarTamano tamanoMb
  pure r

/-- `estaDisponible`: the base class returns `stock > 0`;
`ProductoDigital` overrides it to `stock > 0 || stock === -1`;
`ProductoNull` overrides it to `false`. -/
def estaDisponible (p : ProductoState) : Bool :=
  match p.variante with
  | .nulo => false
  | .digital _ _ _ _ => decide (0 < p.stock) || decide (p.stock = -1)
  | _ => decide (0 < p.stock)

/-- `setStock`: `ProductoNull` overrides it to throw; otherwise the base
class validates the new stock, writes it, bumps `updatedAt` and emits a
stock-changed event. -/
def setStock (p : ProductoState) (stock : Int) (now : Nat) :
    Except DomainError (ProductoState × List Evento) :=
  match p.variante with
  | .nulo => .error .nullProductOperation
  | _ => do
    validarStock stock
    let oldStock := p.stock
    let p1 := { p with stock := stock, updatedAt := now }
    pure (p1, [.stockCambiado p.id oldStock stock (stock - oldStock)])

/-- The `validarReduccionStock` hook.  The base-class hook does nothing;
`ProductoDigital` overrides it to return early when the stock is `-1`
and to defer to the (empty) base hook otherwise — so the hook never
throws for any variant. -/
def validarReduccionStock (p : ProductoState) (_cantidad : Int) :
    Except DomainError Unit :=
  match p.variante with
  | .digital _ _ _ _ => if p.stock = -1 then .ok () else .ok ()
  | _ => .ok ()

/-- The `despuesDeReducirStock` hook.  The base-class hook does nothing;
`ProductoDigital` overrides it to call `setStock(-1)` when the stock it
observes (already decremented by the template method) equals `-1`. -/
def despuesDeReducirStock (p : ProductoState) (_cantidad : Int) (now : Nat) :
    Except DomainError (ProductoState × List Evento) :=
  match p.variante with
  | .digital _ _ _ _ =>
      if p.stock = -1 then setStock p (-1) now else pure (p, [])
  | _ => pure (p, [])

/-- `AbstractProducto.reducirStock` (template method), with
`ProductoNull` overriding the whole method to throw.  The base method:
rejects `cantidad <= 0`; rejects `cantidad > stock`; runs the
`validarReduccionStock` hook; decrements the stock; runs the
`despuesDeReducirStock` hook; bumps `updatedAt`; emits a stock-changed
event `(oldStock, this.stock, -cantidad)`. -/
def reducirStock (p : ProductoState) (cantidad : Int) (now : Nat) :
    Except DomainError (ProductoState × List Evento) :=
  match p.variante with
  | .nulo => .error .nullProductOperation
  | _ =>
    if cantidad ≤ 0 then .error .invalidQuantity
    else if cantidad > p.stock then .error .insufficientStock
    else do
      validarReduccionStock p cantidad
      let oldStock := p.stock
      let p1 := { p with stock := p.stock - cantidad }
      let r ← despuesDeReducirStock p1 cantidad now
      let p2 := { r.1 with updatedAt := now }
      pure (p2, r.2 ++ [.stockCambiado p2.id oldStock p2.stock (-cantidad)])

/-- The `validarAumentoStock` hook: no variant overrides it, so it never
throws. -/
def validarAumentoStock (_p : ProductoState) (_cantidad : Int) :
    Except DomainError Unit :=
  .ok ()

/-- `AbstractProducto.aumentarStock` (template method), with
`ProductoNull` overriding the whole method to throw.  The
`despuesDeAumentarStock` hook is empty in every variant. -/
def aumentarStock (p : ProductoState) (cantidad : Int) (now : Nat) :
    Except DomainError (ProductoState × List Evento) :=
  match p.variante with
  | .nulo => .error .nullProductOperation
  | _ =>
    if cantidad ≤ 0 then .error .invalidQuantity
    else do
      validarAumentoStock p cantidad
      let oldStock := p.stock
      let p1 := { p with stock := p.stock + cantidad, updatedAt := now }
      pure (p1, [.stockCambiado p1.id oldStock p1.stock cantidad])

/-- `calcularPrecioFinal` per variant.  `Producto` and `ProductoDigital`
return the base price when the discount is `<= 0` and otherwise apply
`Money.applyDiscount`; `ProductoNatural` always recomputes
`fromValue(base - base * d / 100, currency)`; `ProductoNull` returns
`Money.zero()`. -/
def calcularPrecioFinal (p : ProductoState) : Except DomainError Money :=
  match p.variante with
  | .estandar d _ _ => if d ≤ 0 then .ok p.precio else p.precio.applyDiscount d
  | .digital _ _ _ d => if d ≤ 0 then .ok p.precio else p.precio.applyDiscount d
  | .natural d _ _ =>
      Money.fromValue (p.precio.amount.sub (p.precio.amount.mul (.fin (d / 100))))
        p.precio.currency
  | .nulo => Money.zero

/-- The `PrecioProductoVisitor` configuration (constructor defaults are
`impuestoGeneral = 21`, `impuestoDigital = 10`). -/
structure PrecioProductoVisitor where
  impuestoGeneral : ℚ
  impuestoDigital : ℚ
deriving DecidableEq, Repr

/-- `PrecioProductoVisitor.visitProductoEstandar`: final price with the
discount applied, times `1 + impuestoGeneral / 100`, rebuilt through
`Money.fromValue`. -/
def visitProductoEstandar (v : PrecioProductoVisitor) (p : ProductoState) :
    Except DomainError Money := do
  let precioConDescuento ← calcularPrecioFinal p
  Money.fromValue
    (precioConDescuento.amount.mul (.fin (1 + v.impuestoGeneral / 100)))
    precioConDescuento.currency

/-- `PrecioProductoVisitor.visitProductoDigital`: final price with the
discount applied, times `1 + impuestoDigital / 100`. -/
def visitProductoDigital (v : PrecioProductoVisitor) (p : ProductoState) :
    Except DomainError Money := do
  let precioConDescuento ← calcularPrecioFinal p
  Money.fromValue
    (precioConDescuento.amount.mul (.fin (1 + v.impuestoDigital / 100)))
    precioConDescuento.currency

/-- `PrecioProductoVisitor.visitProductoNull`: always `Money.zero()`. -/
def visitProductoNull (_v : PrecioProductoVisitor) (_p : ProductoState) :
    Except DomainError Money :=
  Money.zero

/-- `accept(visitor)` double dispatch for `PrecioProductoVisitor`.
`Producto.accept` calls `visitProductoEstandar`, `ProductoDigital.accept`
calls `visitProductoDigital`, `ProductoNull.accept` calls
`visitProductoNull`, and `ProductoNatural.accept` calls
`visitor.visitProductoNatural` — a method the `ProductoVisitor` interface
declares but `PrecioProductoVisitor` never implements, so in the source
the call fails (the class does not satisfy the interface it announces;
at runtime the property is `undefined`).  That failure is modelled as
`DomainError.visitorMethodMissing`. -/
def accept (p : ProductoState) (v : PrecioProductoVisitor) :
    Except DomainError Money :=
  match p.variante with
  | .estandar _ _ _ => visitProductoEstandar v p
  | .digital _ _ _ _ => visitProductoDigital v p
  | .natural _ _ _ => .error .visitorMethodMissing
  | .nulo => visitProductoNull v p

/-- One line of the cart: a product reference and a quantity. -/
structure CarritoItem where
  producto : ProductoState
  cantidad : Int
deriving DecidableEq, Repr

/-- The cart state: the insertion-ordered `Map` from
`producto.getId().toString()` to the line. -/
structure CarritoCompras where
  items : List (String × CarritoItem)
deriving DecidableEq, Repr

/-- `maxItemsPermitidos`, the fixed cap on distinct lines. -/
def maxItemsPermitidos : Nat := 10

/-- `Map.get`: the first binding of the key, if any. -/
def mapGet (l : List (String × CarritoItem)) (k : String) : Option CarritoItem :=
  match l with
  | [] => none
  | (k1, v) :: rest => if k1 = k then some v else mapGet rest k

/-- `Map.set`: replaces the binding of `k` in place, or appends a new
binding at the end. -/
def mapSet (l : List (String × CarritoItem)) (k : String) (v : CarritoItem) :
    List (String × CarritoItem) :=
  match l with
  | [] => [(k, v)]
  | (k1, v1) :: rest =>
      if k1 = k then (k, v) :: rest else (k1, v1) :: mapSet rest k v

/-- `CarritoCompras.agregarProducto(producto, cantidad = 1)`: rejects an
unavailable product; computes the new quantity as the existing quantity
(or 0) plus `cantidad`; rejects a new line when the cart already holds
`maxItemsPermitidos` lines; otherwise inserts or overwrites the line.
The quantity argument is never validated. -/
def agregarProducto (c : CarritoCompras) (producto : ProductoState)
    (cantidad : Int) : Except DomainError CarritoCompras :=
  if estaDisponible producto = false then .error .productUnavailable
  else
    let itemExistente := mapGet c.items producto.id
    let nuevaCantidad :=
      (match itemExistente with | some it => it.cantidad | none => 0) + cantidad
    if itemExistente = none ∧ maxItemsPermitidos ≤ c.items.length then
      .error .cartCapacityExceeded
    else
      .ok { items := mapSet c.items producto.id
              { producto := producto, cantidad := nuevaCantidad } }

/-- `CarritoCompras.eliminarProducto`: `Map.delete`, a no-op when the key
is absent. -/
def eliminarProducto (c : CarritoCompras) (productoId : String) : CarritoCompras :=
  { items := c.items.filter (fun e => e.1 ≠ productoId) }

/-- `CarritoCompras.actualizarCantidad`: fails when the line is absent;
deletes the line when the new quantity is `<= 0`; fails when the line's
product is no longer available; otherwise overwrites the quantity. -/
def actualizarCantidad (c : CarritoCompras) (productoId : String)
    (cantidad : Int) : Except DomainError CarritoCompras :=
  match mapGet c.items productoId with
  | none => .error .lineNotFound
  | some item =>
    if cantidad ≤ 0 then .ok (eliminarProducto c productoId)
    else if estaDisponible item.producto = false then .error .productUnavailable
    else .ok { items := mapSet c.items productoId
                 { producto := item.producto, cantidad := cantidad } }

/-- `CarritoCompras.vaciar`. -/
def vaciar (_c : CarritoCompras) : CarritoCompras :=
  { items := [] }

/-- The loop body of `calcularTotal`: for each line, the line's own
`calcularPrecioFinal` times the quantity, accumulated with
`Money.add`. -/
def calcularTotalAux (items : List (String × CarritoItem)) (total : Money) :
    Except DomainError Money :=
  match items with
  | [] => .ok total
  | (_, item) :: rest => do
      let precioFinal ← calcularPrecioFinal item.producto
      let precioItem ← precioFinal.multiply (.fin (item.cantidad : ℚ))
      let total1 ← total.add precioItem
      calcularTotalAux rest total1

/-- `CarritoCompras.calcularTotal`: folds `Money.add` over the lines,
starting from `Money.zero()`. -/
def calcularTotal (c : CarritoCompras) : Except DomainError Money := do
  let z ← Money.zero
  calcularTotalAux c.items z

/-- A standard product: price 10.00 COP, no discount, stock 5. -/
def prodA : ProductoState :=
  { id := "pA", nombre := "A", descripcion := "desc",
    precio := { amount := .fin 10, currency := "COP" }, stock := 5,
    categoriaId := "cat", imagenUrl := "", createdAt := 0, updatedAt := 0,
    variante := .estandar 0 false [] }

/-- A standard product: price 5.00 COP, discount 50, stock 5. -/
def prodB : ProductoState :=
  { prodA with
    id := "pB"
    precio := { amount := .fin 5, currency := "COP" }
    variante := .estandar 50 false [] }

/-- A digital product whose stock is the unlimited sentinel `-1`. -/
def digitalIlimitado : ProductoState :=
  { prodA with
    id := "dig"
    stock := -1
    variante := .digital "PDF" 1 "url" 0 }

/-- A digital product with finite stock 5, price 10.00 COP, no
discount. -/
def digitalEj : ProductoState :=
  { digitalIlimitado with stock := 5 }

/-- A natural product, price 10.00 COP, no discount, stock 5. -/
def naturalEj : ProductoState :=
  { prodA with id := "nat", variante := .natural 0 false [] }

/-- The `ProductoNull` sentinel: zero price, zero stock. -/
def nuloEj : ProductoState :=
  { prodA with
    id := "nulo"
    stock := 0
    precio := { amount := .fin 0, currency := "COP" }
    variante := .nulo }

/-- A `PrecioProductoVisitor` with the constructor defaults. -/
def visitorEj : PrecioProductoVisitor :=
  { impuestoGeneral := 21, impuestoDigital := 10 }

/-- The empty cart. -/
def carritoVacio : CarritoCompras := { items := [] }

/-- A standard product whose price was built with `Money.of` (currency
USD), no discount, stock 5. -/
def prodUSD : ProductoState :=
  { prodA with
    id := "pU"
    precio := { amount := .fin 10, currency := "USD" } }

/-- C1: the spec says `reduceStock(qty)` on a Digital product with
unlimited stock (−1) succeeds — the InsufficientStock check being skipped
by the variant hook — and leaves the stock at −1.  The code disagrees
with its own design: `AbstractProducto.reducirStock` tests
`cantidad > this.stock` before the `validarReduccionStock` hook ever
runs, so at stock −1 every positive quantity throws InsufficientStock;
and the restoring hook `despuesDeReducirStock` would call `setStock(-1)`,
which `validarStock` rejects as negative.  Both failures at the concrete
failing input. -/
theorem reducir_stock_digital_ilimitado_bug :
    reducirStock digitalIlimitado 1 5 = .error .insufficientStock ∧
    setStock digitalIlimitado (-1) 5 = .error .invalidStock :=
  ⟨by decide, by decide⟩

/-- C2: the spec says constructing a Digital product with stock −1
succeeds (the sentinel satisfies the invariant) and `isAvailable()` is
then true.  The code rejects the construction:
`AbstractProducto.validarStock` throws for every negative stock,
including −1, even though `ProductoDigital`'s own builder defaults the
stock to −1.  The availability override itself would indeed report true
at stock −1. -/
theorem construir_digital_ilimitado_bug :
    mkProductoDigital "dig" "Ebook" "desc"
      { amount := .fin 10, currency := "COP" } (-1) "cat" "" "PDF" 1 "url" 0 0 0
      = .error .invalidStock ∧
    estaDisponible digitalIlimitado = true :=
  ⟨by decide, by decide⟩

/-- C3 counterexample: the claim says the `Money` constructor fails with
InvalidAmount for negative or non-finite amounts and fails with
InvalidCurrency exactly when the code is not 3 characters.  In the code,
`Money.of(-5)` succeeds, `Money.of(Infinity)` succeeds, a 4-character
currency that trims to 3 characters is accepted, and a 3-character
currency that trims to 2 is rejected. -/
theorem money_validacion_counterexample :
    Money.of (.fin (-5)) = .ok { amount := .fin (-5), currency := "USD" } ∧
    Money.of .inf = .ok { amount := .inf, currency := "USD" } ∧
    Money.fromValue (.fin 1) " USD" = .ok { amount := .fin 1, currency := " USD" } ∧
    Money.fromValue (.fin 1) "US " = .error .invalidCurrency :=
  ⟨by decide, by decide, by decide, by decide⟩

/-- C3 (amended): the `Money` constructor fails with InvalidAmount
exactly when the amount is NaN (negative and infinite amounts are
accepted), fails with InvalidCurrency exactly when the amount is not NaN
and the currency is empty or does not trim to exactly 3 characters, and
succeeds otherwise, storing amount and currency unchanged. -/
theorem money_make_caracterizacion (a : JSNum) (c : String) :
    (Money.make a c = .error .invalidAmount ↔ a.isNaN = true) ∧
    (Money.make a c = .error .invalidCurrency ↔
      (a.isNaN = false ∧ (c = "" ∨ (jsTrim c).length ≠ 3))) ∧
    (a.isNaN = false → ¬(c = "" ∨ (jsTrim c).length ≠ 3) →
      Money.make a c = .ok { amount := a, currency := c }) := by
  unfold Money.make Money.validateAmount Money.validateCurrency
  by_cases ha : a.isNaN = true
  · simp [ha, bind, Except.bind]
  · rw [Bool.not_eq_true] at ha
    by_cases hc : c = "" ∨ (jsTrim c).length ≠ 3
    · simp [ha, hc, bind, Except.bind]
    · simp [ha, hc, bind, Except.bind, pure, Except.pure]

/-- C3 witness: the characterisation applied at the concrete input
`(2, "EUR")`. -/
theorem money_make_caracterizacion_witness :
    Money.make (.fin 2) "EUR" = .ok { amount := .fin 2, currency := "EUR" } :=
  (money_make_caracterizacion (.fin 2) "EUR").2.2 rfl (by decide)

/-- C4: the spec says `accept(PrecioProductoVisitor(g, d))` yields the
discounted final price times `1 + rate/100` with the general rate for
Standard and Natural, the digital rate for Digital, and zero for Null.
With the default rates (21, 10) and a price of 10.00 COP this holds for
Standard (12.10), Digital (11.00) and Null (0), but fails for Natural:
`ProductoNatural.accept` calls `visitor.visitProductoNatural`, a method
required by the `ProductoVisitor` interface that `PrecioProductoVisitor`
declares to implement yet never defines, so the dispatch fails instead
of taxing the product at the general rate. -/
theorem precio_visitor_por_variante_bug :
    accept prodA visitorEj = .ok { amount := .fin (121/10), currency := "COP" } ∧
    accept digitalEj visitorEj = .ok { amount := .fin 11, currency := "COP" } ∧
    accept nuloEj visitorEj = .ok { amount := .fin 0, currency := "COP" } ∧
    accept naturalEj visitorEj = .error .visitorMethodMissing := by
  refine ⟨?_, ?_, by decide, by decide⟩
  · simp only [accept, visitProductoEstandar, calcularPrecioFinal, prodA, visitorEj,
      Money.fromValue, Money.make, Money.validateAmount, Money.validateCurrency,
      JSNum.isNaN, JSNum.mul, bind, Except.bind]
    norm_num
    rfl
  · simp only [accept, visitProductoDigital, calcularPrecioFinal, digitalEj,
      digitalIlimitado, prodA, visitorEj,
      Money.fromValue, Money.make, Money.validateAmount, Money.validateCurrency,
      JSNum.isNaN, JSNum.mul, bind, Except.bind]
    norm_num
    rfl

/-- C8: on every non-Null product whose stock is finite (the constructor
invariant gives `0 ≤ stock`; the −1 sentinel is excluded), asking to
reduce more than the current stock fails with InsufficientStock.  In
this embedding an `error` result carries no successor state and no
events: the stock keeps its value, `updatedAt` is not bumped and nothing
is emitted, exactly as in the source, where the throw precedes every
field write. -/
theorem reducir_stock_insuficiente (p : ProductoState) (cantidad : Int)
    (now : Nat) (hvar : p.variante ≠ .nulo) (hstock : 0 ≤ p.stock)
    (hq : p.stock < cantidad) :
    reducirStock p cantidad now = .error .insufficientStock := by
  have h1 : ¬cantidad ≤ 0 := by omega
  have h2 : cantidad > p.stock := hq
  obtain ⟨i, n, d, pr, st, cat, im, ca, ua, var⟩ := p
  simp only at h1 h2 hstock hvar
  cases var with
  | nulo => exact absurd rfl hvar
  | estandar a b c => simp [reducirStock, h1, h2]
  | digital a b c dd => simp [reducirStock, h1, h2]
  | natural a b c => simp [reducirStock, h1, h2]

/-- C8 witness: a standard product with stock 5 asked to shed 99
units. -/
theorem reducir_stock_insuficiente_witness :
    reducirStock prodA 99 1 = .error .insufficientStock :=
  reducir_stock_insuficiente prodA 99 1 (by decide) (by decide) (by decide)

/-- `reduceStock` then `increaseStock` with the same quantity, keeping
only the final state (the composition the round-trip property is
about). -/
def reducirLuegoAumentar (p : ProductoState) (cantidad : Int) (t1 t2 : Nat) :
    Except DomainError ProductoState := do
  let r1 ← reducirStock p cantidad t1
  let r2 ← aumentarStock r1.1 cantidad t2
  pure r2.1

/-- C9: for every non-Null product and every `0 < qty ≤ stock`,
`reduceStock(qty)` followed by `increaseStock(qty)` succeeds and
restores the stock to its original value.  (The claim's exception for a
Digital product starting at stock −1 is vacuous here: `stock ≥ qty ≥ 1`
already excludes −1, and C1/C2 show the code cannot reach a Digital
product with stock −1 at all.) -/
theorem reducir_aumentar_roundtrip (p : ProductoState) (cantidad : Int)
    (t1 t2 : Nat) (hvar : p.variante ≠ .nulo) (hq : 0 < cantidad)
    (hs : cantidad ≤ p.stock) :
    Except.map ProductoState.stock (reducirLuegoAumentar p cantidad t1 t2)
      = .ok p.stock := by
  have h1 : ¬cantidad ≤ 0 := by omega
  have h2 : ¬cantidad > p.stock := by omega
  have h3 : ¬(p.stock - cantidad = -1) := by omega
  have h4 : p.stock - cantidad + cantidad = p.stock := by omega
  obtain ⟨i, n, d, pr, st, cat, im, ca, ua, var⟩ := p
  simp only at h1 h2 h3 h4 hvar
  cases var with
  | nulo => exact absurd rfl hvar
  | estandar a b c =>
      simp [reducirLuegoAumentar, reducirStock, aumentarStock,
        validarReduccionStock, despuesDeReducirStock, validarAumentoStock,
        h1, h2, h3, h4, bind, Except.bind, Except.map, pure, Except.pure]
  | digital a b c dd =>
      simp [reducirLuegoAumentar, reducirStock, aumentarStock,
        validarReduccionStock, despuesDeReducirStock, validarAumentoStock,
        h1, h2, h3, h4, bind, Except.bind, Except.map, pure, Except.pure]
  | natural a b c =>
      simp [reducirLuegoAumentar, reducirStock, aumentarStock,
        validarReduccionStock, despuesDeReducirStock, validarAumentoStock,
        h1, h2, h3, h4, bind, Except.bind, Except.map, pure, Except.pure]

/-- C9 witness: the round-trip on a standard product with stock 5 and
quantity 3. -/
theorem reducir_aumentar_roundtrip_witness :
    Except.map ProductoState.stock (reducirLuegoAumentar prodA 3 1 2) = .ok 5 :=
  reducir_aumentar_roundtrip prodA 3 1 2 (by decide) (by decide) (by decide)

/-- Every line of the cart has a strictly positive quantity (the cart
invariant the spec states). -/
def todasCantidadesPositivas (c : CarritoCompras) : Bool :=
  c.items.all (fun e => decide (0 < e.2.cantidad))

/-- A binding returned by `mapGet` is a member of the list. -/
theorem mapGet_mem (l : List (String × CarritoItem)) (k : String)
    (v : CarritoItem) (h : mapGet l k = some v) : (k, v) ∈ l := by
  induction l with
  | nil => simp [mapGet] at h
  | cons e rest ih =>
      obtain ⟨k1, v1⟩ := e
      unfold mapGet at h
      by_cases hk : k1 = k
      · rw [if_pos hk] at h
        injection h with h
        subst hk h
        exact List.mem_cons_self _ _
      · rw [if_neg hk] at h
        exact List.mem_cons_of_mem _ (ih h)

/-- `mapSet` preserves positivity of all quantities when the inserted
line is positive. -/
theorem mapSet_all_pos (l : List (String × CarritoItem)) (k : String)
    (v : CarritoItem) (hl : l.all (fun e => decide (0 < e.2.cantidad)) = true)
    (hv : 0 < v.cantidad) :
    (mapSet l k v).all (fun e => decide (0 < e.2.cantidad)) = true := by
  induction l with
  | nil => simp [mapSet, hv]
  | cons e rest ih =>
      obtain ⟨k1, v1⟩ := e
      rw [List.all_cons, Bool.and_eq_true] at hl
      obtain ⟨he, hrest⟩ := hl
      unfold mapSet
      by_cases hk : k1 = k
      · rw [if_pos hk]
        simp only [List.all_cons, Bool.and_eq_true]
        exact ⟨by simpa using hv, hrest⟩
      · rw [if_neg hk]
        simp only [List.all_cons, Bool.and_eq_true]
        exact ⟨he, ih hrest⟩

/-- C5 counterexample: the claim quantifies over every quantity
argument, but `agregarProducto` never validates the quantity: adding an
available product with quantity 0 to the empty cart returns normally and
leaves a line whose quantity is not strictly positive. -/
theorem agregar_cantidad_cero_counterexample :
    agregarProducto carritoVacio prodA 0 =
      .ok { items := [("pA", { producto := prodA, cantidad := 0 })] } ∧
    todasCantidadesPositivas
      { items := [("pA", { producto := prodA, cantidad := 0 })] } = false :=
  ⟨by decide, by decide⟩

/-- C5 (amended): on a cart whose lines all have positive quantities,
`eliminarProducto`, `actualizarCantidad` and `vaciar` always preserve
that invariant, and `agregarProducto` preserves it whenever the quantity
argument is strictly positive (for `qty ≤ 0` the code performs no
validation and the invariant can break, as the counterexample shows). -/
theorem carrito_ops_preservan_cantidades (c : CarritoCompras)
    (hc : todasCantidadesPositivas c = true) :
    (∀ (p : ProductoState) (q : Int) (c2 : CarritoCompras), 0 < q →
      agregarProducto c p q = .ok c2 → todasCantidadesPositivas c2 = true) ∧
    (∀ (pid : String) (q : Int) (c2 : CarritoCompras),
      actualizarCantidad c pid q = .ok c2 →
      todasCantidadesPositivas c2 = true) ∧
    (∀ pid : String, todasCantidadesPositivas (eliminarProducto c pid) = true) ∧
    todasCantidadesPositivas (vaciar c) = true := by
  unfold todasCantidadesPositivas at hc
  have helim : ∀ pid : String,
      todasCantidadesPositivas (eliminarProducto c pid) = true := by
    intro pid
    unfold todasCantidadesPositivas eliminarProducto
    rw [List.all_eq_true] at hc ⊢
    intro e he
    exact hc e (List.mem_of_mem_filter he)
  refine ⟨?_, ?_, helim, by simp [todasCantidadesPositivas, vaciar]⟩
  · intro p q c2 hq hok
    unfold agregarProducto at hok
    by_cases hdisp : estaDisponible p = false
    · rw [if_pos hdisp] at hok; cases hok
    · rw [if_neg hdisp] at hok
      simp only at hok
      cases hget : mapGet c.items p.id with
      | none =>
          rw [hget] at hok
          by_cases hcap : (none : Option CarritoItem) = none ∧
              maxItemsPermitidos ≤ c.items.length
          · rw [if_pos hcap] at hok; cases hok
          · rw [if_neg hcap] at hok
            injection hok with hok
            subst hok
            exact mapSet_all_pos _ _ _ hc (by simpa using hq)
      | some it =>
          rw [hget] at hok
          rw [if_neg (by simp)] at hok
          injection hok with hok
          subst hok
          have hit : 0 < it.cantidad := by
            have := (List.all_eq_true.mp hc) _ (mapGet_mem _ _ _ hget)
            simpa using this
          exact mapSet_all_pos _ _ _ hc (by simp; omega)
  · intro pid q c2 hok
    unfold actualizarCantidad at hok
    cases hget : mapGet c.items pid with
    | none => rw [hget] at hok; cases hok
    | some it =>
        rw [hget] at hok
        simp only at hok
        by_cases hq : q ≤ 0
        · rw [if_pos hq] at hok
          injection hok with hok
          subst hok
          exact helim pid
        · rw [if_neg hq] at hok
          by_cases hdisp : estaDisponible it.producto = false
          · rw [if_pos hdisp] at hok; cases hok
          · rw [if_neg hdisp] at hok
            injection hok with hok
            subst hok
            exact mapSet_all_pos _ _ _ hc (by simp; omega)

/-- C5 witness: the amended invariant applied to a concrete one-line
cart and a concrete positive addition. -/
theorem carrito_ops_preservan_cantidades_witness :
    todasCantidadesPositivas
      { items := [("pA", { producto := prodA, cantidad := 2 })] } = true :=
  (carrito_ops_preservan_cantidades carritoVacio (by decide)).1 prodA 2
    { items := [("pA", { producto := prodA, cantidad := 2 })] }
    (by decide) (by decide)

/-- One full-cart line for the capacity witness. -/
def lineaEj (k : String) : String × CarritoItem :=
  (k, { producto := { prodA with id := k }, cantidad := 1 })

/-- A cart already holding `maxItemsPermitidos = 10` distinct lines. -/
def carritoLleno : CarritoCompras :=
  { items := [lineaEj "p0", lineaEj "p1", lineaEj "p2", lineaEj "p3",
      lineaEj "p4", lineaEj "p5", lineaEj "p6", lineaEj "p7",
      lineaEj "p8", lineaEj "p9"] }

/-- A product not yet in `carritoLleno`. -/
def prodNuevo : ProductoState := { prodA with id := "nuevo" }

/-- C6: for an available product, `agregarProducto` on a cart already
holding `maxItemsPermitidos` (10) lines fails with CartCapacityExceeded
when the product has no existing line, while for a product that already
has a line it never performs the capacity check and instead overwrites
the line with its quantity incremented by the argument — whatever the
cart size. -/
theorem agregar_producto_capacidad (c : CarritoCompras) (p : ProductoState)
    (q : Int) (hdisp : estaDisponible p = true) :
    (mapGet c.items p.id = none → maxItemsPermitidos ≤ c.items.length →
      agregarProducto c p q = .error .cartCapacityExceeded) ∧
    (∀ item : CarritoItem, mapGet c.items p.id = some item →
      agregarProducto c p q = .ok { items := mapSet c.items p.id { producto := p, cantidad := item.cantidad + q } }) := by
  have hd : ¬estaDisponible p = false := by simp [hdisp]
  constructor
  · intro hget hlen
    unfold agregarProducto
    rw [if_neg hd]
    simp only [hget]
    rw [if_pos ⟨trivial, hlen⟩]
  · intro item hget
    unfold agregarProducto
    rw [if_neg hd]
    simp only [hget]
    rw [if_neg (by simp)]

/-- C6 witness: the 11th distinct product on a full ten-line cart is
rejected with CartCapacityExceeded. -/
theorem agregar_producto_capacidad_witness :
    agregarProducto carritoLleno prodNuevo 1 = .error .cartCapacityExceeded :=
  (agregar_producto_capacidad carritoLleno prodNuevo 1 (by decide)).1
    (by decide) (by decide)

/-- The amount contributed by one line to the total: the line's own
`calcularPrecioFinal` times its quantity (NaN when the price computation
fails, a case the total theorem's hypothesis excludes). -/
def montoLinea (e : String × CarritoItem) : JSNum :=
  match calcularPrecioFinal e.2.producto with
  | .ok m => m.amount.mul (.fin (e.2.cantidad : ℚ))
  | .error _ => .nan

/-- The sum the specification describes: over all lines, the final price
times the quantity. -/
def totalEsperado (items : List (String × CarritoItem)) : JSNum :=
  items.foldl (fun acc e => acc.add (montoLinea e)) (.fin 0)

/-- The line's final price computes successfully, is finite, and is in
the currency `Money.zero()` starts the accumulation with (COP). -/
def lineaCOPFinita (e : String × CarritoItem) : Bool :=
  match calcularPrecioFinal e.2.producto with
  | .ok m =>
      decide (m.currency = "COP") &&
        (match m.amount with | .fin _ => true | _ => false)
  | .error _ => false

/-- Computation rule of `Except.bind` on a success. -/
theorem exceptBind_ok {α β : Type} (a : α) (f : α → Except DomainError β) :
    Except.bind (Except.ok a) f = f a := rfl

/-- `Money.multiply` of a finite COP value by a finite factor. -/
theorem multiply_fin_COP (b c : ℚ) :
    Money.multiply { amount := .fin b, currency := "COP" } (.fin c) =
      .ok { amount := .fin (b * c), currency := "COP" } := rfl

/-- `Money.add` of two finite COP values. -/
theorem add_fin_COP (a b : ℚ) :
    Money.add { amount := .fin a, currency := "COP" }
      { amount := .fin b, currency := "COP" } =
      .ok { amount := .fin (a + b), currency := "COP" } := rfl

/-- Unfolding lemma: the loop of `calcularTotal` computes the expected
fold, for any finite COP accumulator. -/
theorem calcularTotalAux_ok (items : List (String × CarritoItem)) :
    ∀ acc : ℚ, items.all lineaCOPFinita = true →
    calcularTotalAux items { amount := .fin acc, currency := "COP" } =
      .ok { amount := items.foldl (fun a e => a.add (montoLinea e)) (.fin acc), currency := "COP" } := by
  induction items with
  | nil => intro acc _; rfl
  | cons e rest ih =>
      intro acc h
      rw [List.all_cons, Bool.and_eq_true] at h
      obtain ⟨h1, h2⟩ := h
      unfold lineaCOPFinita at h1
      cases hcp : calcularPrecioFinal e.2.producto with
      | error err => rw [hcp] at h1; cases h1
      | ok m =>
          rw [hcp] at h1
          rw [Bool.and_eq_true, decide_eq_true_eq] at h1
          obtain ⟨hcur, hfin⟩ := h1
          obtain ⟨ma, mc⟩ := m
          simp only at hcur hfin
          subst hcur
          cases ma with
          | nan => cases hfin
          | inf => cases hfin
          | negInf => cases hfin
          | fin b =>
              unfold calcularTotalAux
              rw [hcp]
              simp only [bind, exceptBind_ok]
              rw [multiply_fin_COP]
              simp only [exceptBind_ok]
              rw [add_fin_COP]
              simp only [exceptBind_ok]
              rw [ih (acc + b * (e.2.cantidad : ℚ)) h2]
              simp only [List.foldl_cons, montoLinea, hcp, JSNum.mul, JSNum.add]

/-- C7: on every cart whose lines all price successfully to a finite COP
amount, `calcularTotal` returns precisely the `Money.add`-accumulated sum
of each line's `calcularPrecioFinal` times its quantity, in COP. -/
theorem carrito_calcular_total (c : CarritoCompras)
    (h : c.items.all lineaCOPFinita = true) :
    calcularTotal c = .ok { amount := totalEsperado c.items, currency := "COP" } := by
  unfold calcularTotal totalEsperado
  simp only [Money.zero, Money.make, Money.validateAmount, JSNum.isNaN,
    Money.validateCurrency, bind, Except.bind, pure, Except.pure]
  norm_num
  exact calcularTotalAux_ok c.items 0 h

/-- The cart of the spec's worked example: product A (10.00 COP,
discount 0) with quantity 2 and product B (5.00 COP, discount 50) with
quantity 1. -/
def carritoEjemplo : CarritoCompras :=
  { items := [("pA", { producto := prodA, cantidad := 2 }),
      ("pB", { producto := prodB, cantidad := 1 })] }

/-- C7 witness: the total theorem applied to the spec's example cart
gives 2 × 10.00 + 1 × 2.50 = 22.50 COP. -/
theorem carrito_calcular_total_witness :
    calcularTotal carritoEjemplo = .ok { amount := .fin (45/2), currency := "COP" } := by
  have h := carrito_calcular_total carritoEjemplo (by decide)
  have hA : montoLinea ("pA", { producto := prodA, cantidad := 2 }) = .fin 20 := by
    norm_num [montoLinea, calcularPrecioFinal, prodA, JSNum.mul]
  have hB : montoLinea ("pB", { producto := prodB, cantidad := 1 }) = .fin (5/2) := by
    norm_num [montoLinea, calcularPrecioFinal, prodB, prodA,
      Money.applyDiscount, multiply_fin_COP, JSNum.mul]
  have h2 : totalEsperado carritoEjemplo.items = .fin (45/2) := by
    norm_num [totalEsperado, carritoEjemplo, hA, hB, JSNum.add]
  rw [h, h2]

/-- The line's final price computes successfully, is finite, and is in
USD — the currency of every `Money` built by `Money.of`. -/
def lineaUSDFinita (e : String × CarritoItem) : Bool :=
  match calcularPrecioFinal e.2.producto with
  | .ok m =>
      decide (m.currency = "USD") &&
        (match m.amount with | .fin _ => true | _ => false)
  | .error _ => false

/-- C10: `Money.of` tags its result USD while `Money.zero` (and
`Money.fromValue` with its default) tag theirs COP; hence
`Money.zero().add(Money.of(a))` fails with CurrencyMismatch for every
finite amount `a`, and `calcularTotal` — whose accumulator starts at
`Money.zero()` — fails with CurrencyMismatch on every non-empty cart
whose line prices (finite, computed successfully) carry the USD tag of
`Money.of`. -/
theorem money_of_zero_add_mismatch (a : ℚ) :
    (Money.of (.fin a) = .ok { amount := .fin a, currency := "USD" }) ∧
    (∀ z m : Money, Money.zero = .ok z → Money.of (.fin a) = .ok m →
      z.add m = .error .currencyMismatch) ∧
    (∀ (c : CarritoCompras) (e : String × CarritoItem)
      (rest : List (String × CarritoItem)), c.items = e :: rest →
      lineaUSDFinita e = true → calcularTotal c = .error .currencyMismatch) := by
  refine ⟨rfl, ?_, ?_⟩
  · intro z m hz hm
    have hz1 : (Except.ok { amount := .fin 0, currency := "COP" }
        : Except DomainError Money) = .ok z := hz
    have hm1 : (Except.ok { amount := .fin a, currency := "USD" }
        : Except DomainError Money) = .ok m := hm
    injection hz1 with hz2
    injection hm1 with hm2
    subst hz2
    subst hm2
    rfl
  · intro c e rest hitems husd
    unfold lineaUSDFinita at husd
    cases hcp : calcularPrecioFinal e.2.producto with
    | error err => rw [hcp] at husd; cases husd
    | ok m =>
        rw [hcp] at husd
        rw [Bool.and_eq_true, decide_eq_true_eq] at husd
        obtain ⟨hcur, hfin⟩ := husd
        obtain ⟨ma, mc⟩ := m
        simp only at hcur hfin
        subst hcur
        cases ma with
        | nan => cases hfin
        | inf => cases hfin
        | negInf => cases hfin
        | fin b =>
            unfold calcularTotal
            rw [hitems]
            simp only [bind, exceptBind_ok, Money.zero]
            unfold calcularTotalAux
            rw [hcp]
            simp only [bind, exceptBind_ok]
            rfl

/-- A one-line cart whose product price was built with `Money.of`
(currency USD). -/
def carritoUSD : CarritoCompras :=
  { items := [("pU", { producto := prodUSD, cantidad := 1 })] }

/-- C10 witness: the mismatch theorem applied to the concrete USD
cart. -/
theorem money_of_zero_add_mismatch_witness :
    calcularTotal carritoUSD = .error .currencyMismatch :=
  (money_of_zero_add_mismatch 7).2.2 carritoUSD
    ("pU", { producto := prodUSD, cantidad := 1 }) [] rfl (by decide)
